import Mathlib

/-!
Shallow embedding of `src/hpc_fast_trainer.py` (class `HPCFastTrainer`),
centred on the method `run_my_task(self, inputs, settings, outputs)`.

Modelling conventions:
* Python dicts that are only looked up by string keys become association
  lists (`List (String × _)`) queried with `List.lookup`.
* A resource record (as produced by `_inputs` / the Rodan runtime) is
  modelled by the two fields `run_my_task` actually reads:
  `resource_url` (for inputs) and `resource_path` (for outputs).
* Exceptions become an explicit `Err` value: `KeyError` on a missing
  dict key, `IndexError` on `[0]` applied to an empty list.
* Broker side effects (connection, queue declarations, publish, polling
  `basic_get`, `basic_ack`, closing the connection) are recorded in a
  trace of `Effect`s; the local filesystem is an explicit map from path
  to byte content, bytes being naturals below 256.
* The reply queue is modelled as the list of messages that arrive on
  the shared queue `hpc-results`, in arrival order; the fresh
  `uuid4()` correlation id is a parameter (its freshness is external
  nondeterminism).
* The poll loop `while not message_received: ...` has no timeout in the
  source; its terminating runs are captured by `pollLoop` (which walks
  the arrival list to the first correlation match) and its step
  behaviour by the small-step `pollStep` / `pollIter`, which never
  leave the `awaiting` state unless a matching message is found.
-/

namespace HPC

/-- A resource record, restricted to the two fields `run_my_task` reads. -/
structure Res where
  resource_url : String
  resource_path : String
deriving DecidableEq

/-- The `inputs` argument: input port name to list of resource records. -/
abbrev Inputs := List (String × List Res)

/-- The `outputs` argument: output port name to list of resource records. -/
abbrev Outputs := List (String × List Res)

/-- `os.environ`, as far as the code reads it. -/
abbrev Env := List (String × String)

/-- A JSON-scalar value of the settings object. -/
inductive SettingVal where
  | int (n : Int)
  | str (s : String)
deriving DecidableEq

/-- The `settings` argument; `run_my_task` never inspects it. -/
abbrev SettingsV := List (String × SettingVal)

/-- The decoded JSON body of a reply message (`result_dict`): output
name to base64 text. -/
abbrev RespDict := List (String × String)

/-- A message on the `hpc-results` reply queue. -/
structure Msg where
  correlation_id : String
  body : RespDict
deriving DecidableEq

/-- The JSON request body `message_dict = {'inputs': input, 'settings': settings}`. -/
structure MessageBody where
  inputs : List (String × String)
  settings : SettingsV
deriving DecidableEq

/-- Python exceptions raised by `run_my_task`. -/
inductive Err where
  | keyError (key : String)
  | indexError
deriving DecidableEq

/-- Local filesystem: path to byte content (each byte a natural below 256). -/
abbrev FS := List (String × List Nat)

/-- Broker-facing side effects of `run_my_task`, in program order. -/
inductive Effect where
  | connect (host user pass : String)
  | queueDeclare (q : String)
  | publish (routing_key : String) (reply_to : String) (corr : String) (body : MessageBody)
  | basicGet (q : String)
  | ack (m : Msg)
  | close
deriving DecidableEq

/-- Decidable equality of `Except` results, for the concrete witness
computations. -/
instance {ε α : Type} [DecidableEq ε] [DecidableEq α] : DecidableEq (Except ε α) :=
  fun a b =>
    match a, b with
    | .error e, .error e' =>
      match decEq e e' with
      | isTrue h => isTrue (by rw [h])
      | isFalse h => isFalse (by intro hc; cases hc; exact h rfl)
    | .error _, .ok _ => isFalse (by intro hc; cases hc)
    | .ok v, .ok v' =>
      match decEq v v' with
      | isTrue h => isTrue (by rw [h])
      | isFalse h => isFalse (by intro hc; cases hc; exact h rfl)
    | .ok _, .error _ => isFalse (by intro hc; cases hc)

/-- `inputs[k][0]['resource_url']`: `KeyError k` when the port is absent,
`IndexError` when its resource list is empty. -/
def getFirstUrl (inp : Inputs) (k : String) : Except Err String :=
  match List.lookup k inp with
  | none => .error (.keyError k)
  | some [] => .error .indexError
  | some (r :: _) => .ok r.resource_url

/-- Lines 113-119: the `input` dict built from the six fixed ports, in
source order, keyed by the names used in the outgoing message. -/
def buildInput (inp : Inputs) : Except Err (List (String × String)) :=
  match getFirstUrl inp "Image" with
  | .error e => .error e
  | .ok img =>
    match getFirstUrl inp "rgba PNG - Background layer" with
    | .error e => .error e
    | .ok bg =>
      match getFirstUrl inp "rgba PNG - Music symbol layer" with
      | .error e => .error e
      | .ok mus =>
        match getFirstUrl inp "rgba PNG - Staff lines layer" with
        | .error e => .error e
        | .ok st =>
          match getFirstUrl inp "rgba PNG - Text" with
          | .error e => .error e
          | .ok txt =>
            match getFirstUrl inp "rgba PNG - Selected regions" with
            | .error e => .error e
            | .ok sel =>
              .ok [("Image", img), ("Background", bg), ("Music Layer", mus),
                   ("Staff Layer", st), ("Text", txt), ("Selected Regions", sel)]

/-- The six required input port names, in the order the code reads them. -/
def requiredInputNames : List String :=
  ["Image", "rgba PNG - Background layer", "rgba PNG - Music symbol layer",
   "rgba PNG - Staff lines layer", "rgba PNG - Text", "rgba PNG - Selected regions"]

/-- `os.environ[k]`: `KeyError k` when the variable is unset. -/
def getEnv (env : Env) (k : String) : Except Err String :=
  match List.lookup k env with
  | none => .error (.keyError k)
  | some v => .ok v

/-- The three environment variables the code reads, in read order. -/
def envNames : List String :=
  ["HPC_RABBITMQ_USER", "HPC_RABBITMQ_PASSWORD", "HPC_RABBITMQ_HOST"]

/-- Lines 152-162: the poll loop. Walks the arrival list; a message whose
`correlation_id` differs is fetched but neither acknowledged nor consumed;
the first match is acknowledged and its body returned. `none` means no
match ever arrives: the Python loop then never terminates. -/
def pollLoop (cid : String) : List Msg → List Effect × Option RespDict
  | [] => ([], none)
  | m :: rest =>
    if m.correlation_id = cid then
      ([.basicGet "hpc-results", .ack m], some m.body)
    else
      let (tr, r) := pollLoop cid rest
      (.basicGet "hpc-results" :: tr, r)

/-! ### Base64 codec

The response side of the transport (lines 164-171) decodes each output
with `base64.decodebytes(... .encode('utf-8'))`. The matching encoder
runs on the remote cluster and is not part of `src/`.

Modelled from the spec: the `encode(file_path) -> encoded-bytes`
operation (the base64 text encoding produced on the remote side, absent
from `src/`) is `b64encodeStr`: standard base64 with `=` padding. The
decoder `b64decodeStr` follows `base64.decodebytes`, which discards any
character outside the base64 alphabet (newlines, padding) and decodes
the remaining sextet stream. -/

/-- The 64-character base64 alphabet, in value order. -/
def b64alphabet : List Char :=
  ['A','B','C','D','E','F','G','H','I','J','K','L','M','N','O','P',
   'Q','R','S','T','U','V','W','X','Y','Z',
   'a','b','c','d','e','f','g','h','i','j','k','l','m','n','o','p',
   'q','r','s','t','u','v','w','x','y','z',
   '0','1','2','3','4','5','6','7','8','9','+','/']

/-- Character for a sextet value. -/
def b64char (n : Nat) : Char := b64alphabet.getD n '='

/-- Sextet value of a character; `none` for characters outside the
alphabet (padding, whitespace), which `base64.decodebytes` discards. -/
def b64val (c : Char) : Option Nat :=
  let i := b64alphabet.indexOf c
  if i < 64 then some i else none

/-- Bytes to sextets, three bytes to four sextets, with the short final
group of standard base64. -/
def encodeChunks : List Nat → List Nat
  | a :: b :: c :: rest =>
    a / 4 :: (a % 4 * 16 + b / 16) :: (b % 16 * 4 + c / 64) :: c % 64 :: encodeChunks rest
  | [a, b] => [a / 4, a % 4 * 16 + b / 16, b % 16 * 4]
  | [a] => [a / 4, a % 4 * 16]
  | [] => []

/-- Sextets to bytes, inverse grouping of `encodeChunks`. -/
def decodeChunks : List Nat → List Nat
  | w :: x :: y :: z :: rest =>
    (w * 4 + x / 16) :: (x % 16 * 16 + y / 4) :: (y % 4 * 64 + z) :: decodeChunks rest
  | [w, x, y] => [w * 4 + x / 16, x % 16 * 16 + y / 4]
  | [w, x] => [w * 4 + x / 16]
  | _ => []

/-- `=` padding of standard base64. -/
def b64padding (bs : List Nat) : List Char :=
  match bs.length % 3 with
  | 1 => ['=', '=']
  | 2 => ['=']
  | _ => []

/-- Base64 text encoding of a byte sequence (the remote side's `encode`). -/
def b64encodeStr (bs : List Nat) : String :=
  ⟨(encodeChunks bs).map b64char ++ b64padding bs⟩

/-- `base64.decodebytes(s.encode('utf-8'))`: discard non-alphabet
characters, then decode the sextet stream. -/
def b64decodeStr (s : String) : List Nat :=
  decodeChunks (s.data.filterMap b64val)

/-! ### Filesystem and response unpacking (lines 164-171) -/

/-- Store `d` at path `p`, replacing any previous content. -/
def fsWrite (fs : FS) (p : String) (d : List Nat) : FS :=
  match fs with
  | [] => [(p, d)]
  | (q, e) :: rest => if q = p then (p, d) :: rest else (q, e) :: fsWrite rest p d

/-- `outputs[k][0]['resource_path']`. -/
def getFirstPath (outp : Outputs) (k : String) : Except Err String :=
  match List.lookup k outp with
  | none => .error (.keyError k)
  | some [] => .error .indexError
  | some (r :: _) => .ok r.resource_path

/-- One `with open(outputs[k][0]['resource_path'], 'wb') as f: f.write(
base64.decodebytes(result_dict[k].encode('utf-8')))` block. `open(...,
'wb')` truncates the file before `result_dict[k]` is evaluated, so a
missing response key leaves the destination truncated to empty. -/
def writeOutput (outp : Outputs) (rd : RespDict) (k : String) (fs : FS) :
    FS × Option Err :=
  match getFirstPath outp k with
  | .error e => (fs, some e)
  | .ok p =>
    let fs1 := fsWrite fs p []
    match List.lookup k rd with
    | none => (fs1, some (.keyError k))
    | some v => (fsWrite fs1 p (b64decodeStr v), none)

/-- Lines 164-171: the four output blocks, in source order, stopping at
the first raised exception. -/
def unpack (outp : Outputs) (rd : RespDict) (fs : FS) : FS × Option Err :=
  match writeOutput outp rd "Background Model" fs with
  | (fs1, some e) => (fs1, some e)
  | (fs1, none) =>
    match writeOutput outp rd "Music Symbol Model" fs1 with
    | (fs2, some e) => (fs2, some e)
    | (fs2, none) =>
      match writeOutput outp rd "Staff Lines Model" fs2 with
      | (fs3, some e) => (fs3, some e)
      | (fs3, none) =>
        match writeOutput outp rd "Text Model" fs3 with
        | (fs4, r) => (fs4, r)

/-! ### The whole of `run_my_task` -/

/-- Outcome of a call to `run_my_task`: a raised exception, divergence
of the poll loop (no matching reply ever arrives), or a normal return. -/
inductive RunResult where
  | raises (e : Err)
  | diverges
  | returns (b : Bool)
deriving DecidableEq

/-- `run_my_task(self, inputs, settings, outputs)`, lines 112-173.
Besides the three Python arguments, the model takes the environment,
the fresh `uuid4()` correlation id, the arrival list of the
`hpc-results` queue, and the initial filesystem; it yields the outcome,
the trace of broker effects, and the final filesystem. -/
def run_my_task (inp : Inputs) (s : SettingsV) (outp : Outputs) (env : Env)
    (cid : String) (queue : List Msg) (fs : FS) :
    RunResult × List Effect × FS :=
  match buildInput inp with
  | .error e => (.raises e, [], fs)
  | .ok l =>
    let body : MessageBody := ⟨l, s⟩
    match getEnv env "HPC_RABBITMQ_USER" with
    | .error e => (.raises e, [], fs)
    | .ok user =>
      match getEnv env "HPC_RABBITMQ_PASSWORD" with
      | .error e => (.raises e, [], fs)
      | .ok pass =>
        match getEnv env "HPC_RABBITMQ_HOST" with
        | .error e => (.raises e, [], fs)
        | .ok host =>
          let tr0 : List Effect :=
            [.connect host user pass, .queueDeclare "hpc-jobs",
             .queueDeclare "hpc-results",
             .publish "hpc-jobs" "hpc-results" cid body]
          match pollLoop cid queue with
          | (ptr, none) => (.diverges, tr0 ++ ptr, fs)
          | (ptr, some rd) =>
            match unpack outp rd fs with
            | (fs', some e) => (.raises e, tr0 ++ ptr ++ [.close], fs')
            | (fs', none) => (.returns true, tr0 ++ ptr ++ [.close], fs')

/-- State of the poll loop between iterations: either still awaiting with a
list of not-yet-fetched arrivals, or completed with a reply body. The
source has no timeout state: no other outcome exists. -/
inductive PollState where
  | awaiting (pending : List Msg)
  | completed (body : RespDict)
deriving DecidableEq

/-- One iteration of `while not message_received`: an empty `basic_get`
just calls `conn.process_data_events()` and retries; a non-matching
message is skipped unacknowledged; a match completes the loop. -/
def pollStep (cid : String) : PollState → PollState
  | .awaiting [] => .awaiting []
  | .awaiting (m :: rest) =>
      if m.correlation_id = cid then .completed m.body else .awaiting rest
  | .completed b => .completed b

/-- `n` iterations of the poll loop. -/
def pollIter (cid : String) : Nat → PollState → PollState
  | 0, s => s
  | n + 1, s => pollIter cid n (pollStep cid s)

/-- The first resource of a port, together with whether the port exists:
`none` when the key is absent, `some none` when its resource list is
empty, `some (some r)` when `r` is the resource at index 0. -/
def firstOf (inp : Inputs) (k : String) : Option (Option Res) :=
  (List.lookup k inp).map List.head?

/-- An outputs mapping with one resource per required output port. -/
def mkOutputs (o1 o2 o3 o4 : Res) : Outputs :=
  [("Background Model", [o1]), ("Music Symbol Model", [o2]),
   ("Staff Lines Model", [o3]), ("Text Model", [o4])]

/-! ### Concrete test fixtures

Used by the closed witness and counterexample theorems below. -/

/-- A complete inputs mapping, one resource per port. -/
def cInp : Inputs :=
  [("Image", [⟨"http://example/r1", "p1"⟩]),
   ("rgba PNG - Background layer", [⟨"http://example/r2", "p2"⟩]),
   ("rgba PNG - Music symbol layer", [⟨"http://example/r3", "p3"⟩]),
   ("rgba PNG - Staff lines layer", [⟨"http://example/r4", "p4"⟩]),
   ("rgba PNG - Text", [⟨"http://example/r5", "p5"⟩]),
   ("rgba PNG - Selected regions", [⟨"http://example/r6", "p6"⟩])]

/-- `cInp` with a second resource added on every port: it agrees with
`cInp` on every port's first resource. -/
def cInp2 : Inputs :=
  [("Image", [⟨"http://example/r1", "p1"⟩, ⟨"http://other/x1", "q1"⟩]),
   ("rgba PNG - Background layer", [⟨"http://example/r2", "p2"⟩, ⟨"http://other/x2", "q2"⟩]),
   ("rgba PNG - Music symbol layer", [⟨"http://example/r3", "p3"⟩, ⟨"http://other/x3", "q3"⟩]),
   ("rgba PNG - Staff lines layer", [⟨"http://example/r4", "p4"⟩, ⟨"http://other/x4", "q4"⟩]),
   ("rgba PNG - Text", [⟨"http://example/r5", "p5"⟩, ⟨"http://other/x5", "q5"⟩]),
   ("rgba PNG - Selected regions", [⟨"http://example/r6", "p6"⟩, ⟨"http://other/x6", "q6"⟩])]

/-- The `input` dict `buildInput` produces from `cInp`. -/
def cInputList : List (String × String) :=
  [("Image", "http://example/r1"), ("Background", "http://example/r2"),
   ("Music Layer", "http://example/r3"), ("Staff Layer", "http://example/r4"),
   ("Text", "http://example/r5"), ("Selected Regions", "http://example/r6")]

/-- A settings mapping. -/
def cSettings : SettingsV :=
  [("Maximum number of training epochs", .int 10), ("Patch height", .int 256),
   ("Patch width", .int 256)]

/-- The request body published for `cInp` and `cSettings`. -/
def cBody : MessageBody := ⟨cInputList, cSettings⟩

/-- Output resources, with destination paths pb, pm, ps, pt. -/
def cO1 : Res := ⟨"", "pb"⟩

/-- Second output resource. -/
def cO2 : Res := ⟨"", "pm"⟩

/-- Third output resource. -/
def cO3 : Res := ⟨"", "ps"⟩

/-- Fourth output resource. -/
def cO4 : Res := ⟨"", "pt"⟩

/-- A complete outputs mapping. -/
def cOutp : Outputs := mkOutputs cO1 cO2 cO3 cO4

/-- An environment carrying all three broker variables. -/
def cEnv : Env :=
  [("HPC_RABBITMQ_USER", "guest"), ("HPC_RABBITMQ_PASSWORD", "secret"),
   ("HPC_RABBITMQ_HOST", "rabbit.example")]

/-- An environment missing `HPC_RABBITMQ_PASSWORD` and `HPC_RABBITMQ_HOST`. -/
def cEnvMissing : Env := [("HPC_RABBITMQ_USER", "guest")]

/-- A complete reply body: the four models, base64 for bytes 0, 1, 2, 3. -/
def cRd : RespDict :=
  [("Background Model", "AA=="), ("Music Symbol Model", "AQ=="),
   ("Staff Lines Model", "Ag=="), ("Text Model", "Aw==")]

/-- A reply body missing the required key "Text Model". -/
def cRd3 : RespDict :=
  [("Background Model", "AA=="), ("Music Symbol Model", "AQ=="),
   ("Staff Lines Model", "Ag==")]

/-- A reply bearing another caller's correlation token. -/
def cMsgOther : Msg := ⟨"other-token", [("Background Model", "zzzz")]⟩

/-- The reply bearing this call's correlation token "t". -/
def cMsgMatch : Msg := ⟨"t", cRd⟩

/-- Arrival order on `hpc-results`: the foreign reply first. -/
def cQueue : List Msg := [cMsgOther, cMsgMatch]

/-- The trace of the poll loop over `cQueue` with token "t". -/
def cPollTr : List Effect :=
  [.basicGet "hpc-results", .basicGet "hpc-results", .ack cMsgMatch]

/-- An initial filesystem: the Image input file `p1` holds bytes 0 1 2,
and each destination path holds byte 9. -/
def cFs : FS := [("p1", [0, 1, 2]), ("pb", [9]), ("pm", [9]), ("ps", [9]), ("pt", [9])]

/-- Filesystem after a successful run over `cQueue`. -/
def cFsFinal : FS :=
  [("p1", [0, 1, 2]), ("pb", [0]), ("pm", [1]), ("ps", [2]), ("pt", [3])]

/-- Filesystem after unpacking the incomplete reply `cRd3`: three outputs
written, the "Text Model" destination truncated. -/
def cFsAfter : FS :=
  [("p1", [0, 1, 2]), ("pb", [0]), ("pm", [1]), ("ps", [2]), ("pt", [])]

/-- The effect trace of the successful run over `cQueue`. -/
def cTrace : List Effect :=
  [.connect "rabbit.example" "guest" "secret", .queueDeclare "hpc-jobs",
   .queueDeclare "hpc-results", .publish "hpc-jobs" "hpc-results" "t" cBody,
   .basicGet "hpc-results", .basicGet "hpc-results", .ack cMsgMatch, .close]

/-! ## Base64 helper lemmas -/

/-- Decoding a character of the alphabet recovers its sextet value. -/
theorem b64val_b64char : ∀ n < 64, b64val (b64char n) = some n := by decide

/-- All sextets produced from bytes are below 64. -/
theorem encodeChunks_lt (bs : List Nat) (h : ∀ b ∈ bs, b < 256) :
    ∀ x ∈ encodeChunks bs, x < 64 := by
  induction bs using encodeChunks.induct with
  | case1 a b c rest ih =>
    simp only [encodeChunks, List.mem_cons] at *
    have ha := h a (by tauto)
    have hb := h b (by tauto)
    have hc := h c (by tauto)
    intro x hx
    rcases hx with rfl | rfl | rfl | rfl | hx
    · omega
    · omega
    · omega
    · omega
    · exact ih (fun y hy => h y (by tauto)) x hx
  | case2 a b =>
    intro x hx
    have ha := h a (by simp)
    have hb := h b (by simp)
    simp only [encodeChunks, List.mem_cons, List.not_mem_nil, or_false] at hx
    rcases hx with rfl | rfl | rfl <;> omega
  | case3 a =>
    intro x hx
    have ha := h a (by simp)
    simp only [encodeChunks, List.mem_cons, List.not_mem_nil, or_false] at hx
    rcases hx with rfl | rfl <;> omega
  | case4 => intro x hx; simp [encodeChunks] at hx

/-- Regrouping sextets recovers the original bytes. -/
theorem decode_encode_chunks (bs : List Nat) (h : ∀ b ∈ bs, b < 256) :
    decodeChunks (encodeChunks bs) = bs := by
  induction bs using encodeChunks.induct with
  | case1 a b c rest ih =>
    have ha := h a (by simp)
    have hb := h b (by simp)
    have hc := h c (by simp)
    simp only [encodeChunks, decodeChunks]
    rw [ih (fun y hy => h y (by simp [hy]))]
    congr 1
    · omega
    · congr 1
      · omega
      · congr 1
        omega
  | case2 a b =>
    have ha := h a (by simp)
    have hb := h b (by simp)
    simp only [encodeChunks, decodeChunks]
    congr 1
    · omega
    · congr 1
      omega
  | case3 a =>
    have ha := h a (by simp)
    simp only [encodeChunks, decodeChunks]
    congr 1
    omega
  | case4 => rfl

/-- Mapping sextets to characters and filtering back is the identity. -/
theorem filterMap_b64val_map (l : List Nat) (h : ∀ x ∈ l, x < 64) :
    (l.map b64char).filterMap b64val = l := by
  induction l with
  | nil => rfl
  | cons x rest ih =>
    simp only [List.map_cons, List.filterMap_cons]
    rw [b64val_b64char x (h x (by simp))]
    rw [ih (fun y hy => h y (by simp [hy]))]

/-- Padding characters carry no sextet value. -/
theorem filterMap_b64val_padding (bs : List Nat) :
    (b64padding bs).filterMap b64val = [] := by
  unfold b64padding
  rcases hm : bs.length % 3 with _ | _ | n
  · rfl
  · rfl
  · rcases n with _ | n <;> rfl

/-! ## Poll loop lemmas -/

/-- The poll loop performs only fetches and acknowledgements of matching
messages: every acknowledged message bears this call's token. -/
theorem pollLoop_effects (cid : String) (q : List Msg) :
    ∀ e ∈ (pollLoop cid q).1,
      e = Effect.basicGet "hpc-results" ∨ ∃ m, e = Effect.ack m ∧ m.correlation_id = cid := by
  induction q with
  | nil => intro e he; simp [pollLoop] at he
  | cons m rest ih =>
    intro e he
    by_cases hm : m.correlation_id = cid
    · simp only [pollLoop, if_pos hm, List.mem_cons, List.not_mem_nil, or_false] at he
      rcases he with he | he
      · exact Or.inl he
      · exact Or.inr ⟨m, he, hm⟩
    · rcases hrec : pollLoop cid rest with ⟨tr, r⟩
      simp only [pollLoop, if_neg hm, hrec, List.mem_cons] at he
      rcases he with he | he
      · exact Or.inl he
      · exact ih e (by rw [hrec]; exact he)

/-- A returned reply body belongs to a message bearing this call's token. -/
theorem pollLoop_some (cid : String) (q : List Msg) (tr : List Effect) (rd : RespDict)
    (h : pollLoop cid q = (tr, some rd)) :
    ∃ m ∈ q, m.correlation_id = cid ∧ rd = m.body := by
  induction q generalizing tr with
  | nil => simp [pollLoop] at h
  | cons m rest ih =>
    by_cases hm : m.correlation_id = cid
    · simp only [pollLoop, if_pos hm, Prod.mk.injEq, Option.some.injEq] at h
      exact ⟨m, by simp, hm, h.2.symm⟩
    · rcases hrec : pollLoop cid rest with ⟨tr', r⟩
      simp only [pollLoop, if_neg hm, hrec, Prod.mk.injEq] at h
      rcases h with ⟨htr, hr⟩
      rcases ih tr' (by rw [hrec, hr]) with ⟨m', hmem, hcid, hbody⟩
      exact ⟨m', by simp [hmem], hcid, hbody⟩

/-- On a queue without a matching message the loop only fetches: it
acknowledges nothing and returns nothing. -/
theorem pollLoop_none_of_no_match (cid : String) (q : List Msg)
    (h : ∀ m ∈ q, m.correlation_id ≠ cid) :
    pollLoop cid q = ((q.map fun _ => Effect.basicGet "hpc-results"), none) := by
  induction q with
  | nil => rfl
  | cons m rest ih =>
    have hm := h m (by simp)
    simp only [pollLoop, if_neg hm, ih (fun m' hm' => h m' (by simp [hm'])), List.map_cons]

/-- Without a matching arrival the loop state stays `awaiting` forever. -/
theorem pollIter_stays_awaiting (cid : String) :
    ∀ (n : Nat) (q : List Msg), (∀ m ∈ q, m.correlation_id ≠ cid) →
      ∃ q', pollIter cid n (.awaiting q) = .awaiting q' ∧ ∀ m ∈ q', m.correlation_id ≠ cid := by
  intro n
  induction n with
  | zero => intro q h; exact ⟨q, rfl, h⟩
  | succ n ih =>
    intro q h
    match q with
    | [] => exact ih [] (by simp)
    | m :: rest =>
      have hm := h m (by simp)
      have hstep : pollStep cid (.awaiting (m :: rest)) = .awaiting rest := by
        simp [pollStep, if_neg hm]
      rw [show pollIter cid (n+1) (.awaiting (m :: rest))
            = pollIter cid n (pollStep cid (.awaiting (m :: rest))) from rfl, hstep]
      exact ih rest (fun m' hm' => h m' (by simp [hm']))

/-! ## Input, environment and filesystem lemmas -/

/-- A successful first-resource read means the port key is present. -/
theorem getFirstUrl_ok_isSome (inp : Inputs) (k : String) (v : String)
    (h : getFirstUrl inp k = .ok v) : (List.lookup k inp).isSome := by
  unfold getFirstUrl at h
  rcases hl : List.lookup k inp with _ | l
  · rw [hl] at h; exact Except.noConfusion h
  · rfl

/-- A successfully built input dict means every required port key is
present in the inputs mapping. -/
theorem buildInput_ok_lookup (inp : Inputs) (l : List (String × String))
    (h : buildInput inp = .ok l) :
    ∀ k ∈ requiredInputNames, (List.lookup k inp).isSome := by
  unfold buildInput at h
  cases h1 : getFirstUrl inp "Image" with
  | error e => simp only [h1] at h; exact Except.noConfusion h
  | ok v1 =>
  simp only [h1] at h
  cases h2 : getFirstUrl inp "rgba PNG - Background layer" with
  | error e => simp only [h2] at h; exact Except.noConfusion h
  | ok v2 =>
  simp only [h2] at h
  cases h3 : getFirstUrl inp "rgba PNG - Music symbol layer" with
  | error e => simp only [h3] at h; exact Except.noConfusion h
  | ok v3 =>
  simp only [h3] at h
  cases h4 : getFirstUrl inp "rgba PNG - Staff lines layer" with
  | error e => simp only [h4] at h; exact Except.noConfusion h
  | ok v4 =>
  simp only [h4] at h
  cases h5 : getFirstUrl inp "rgba PNG - Text" with
  | error e => simp only [h5] at h; exact Except.noConfusion h
  | ok v5 =>
  simp only [h5] at h
  cases h6 : getFirstUrl inp "rgba PNG - Selected regions" with
  | error e => simp only [h6] at h; exact Except.noConfusion h
  | ok v6 =>
  intro k hk
  simp only [requiredInputNames, List.mem_cons, List.not_mem_nil, or_false] at hk
  rcases hk with rfl | rfl | rfl | rfl | rfl | rfl
  · exact getFirstUrl_ok_isSome _ _ _ h1
  · exact getFirstUrl_ok_isSome _ _ _ h2
  · exact getFirstUrl_ok_isSome _ _ _ h3
  · exact getFirstUrl_ok_isSome _ _ _ h4
  · exact getFirstUrl_ok_isSome _ _ _ h5
  · exact getFirstUrl_ok_isSome _ _ _ h6

/-- A successful environment read reflects the lookup. -/
theorem getEnv_ok_lookup (env : Env) (k v : String) (h : getEnv env k = .ok v) :
    List.lookup k env = some v := by
  unfold getEnv at h
  rcases hl : List.lookup k env with _ | w
  · rw [hl] at h; exact Except.noConfusion h
  · rw [hl] at h
    cases h
    rfl

/-- A failed environment read is a `KeyError` on that variable. -/
theorem getEnv_error_eq (env : Env) (k : String) (e : Err) (h : getEnv env k = .error e) :
    e = .keyError k := by
  unfold getEnv at h
  rcases hl : List.lookup k env with _ | w
  · rw [hl] at h
    cases h
    rfl
  · rw [hl] at h; exact Except.noConfusion h

/-- `getFirstUrl` depends only on the port's first resource. -/
theorem getFirstUrl_congr (inp inp' : Inputs) (k : String)
    (h : firstOf inp k = firstOf inp' k) :
    getFirstUrl inp k = getFirstUrl inp' k := by
  unfold firstOf at h
  unfold getFirstUrl
  rcases h1 : List.lookup k inp with _ | l <;> rcases h2 : List.lookup k inp' with _ | l'
  · rfl
  · rw [h1, h2] at h; simp at h
  · rw [h1, h2] at h; simp at h
  · rw [h1, h2] at h
    simp only [Option.map_some', Option.some.injEq] at h
    cases l with
    | nil =>
      cases l' with
      | nil => rfl
      | cons r' t' => simp at h
    | cons r t =>
      cases l' with
      | nil => simp at h
      | cons r' t' =>
        simp only [List.head?, Option.some.injEq] at h
        rw [h]

/-- `buildInput` depends only on the first resource of each required port. -/
theorem buildInput_congr (inp inp' : Inputs)
    (h : ∀ k ∈ requiredInputNames, firstOf inp k = firstOf inp' k) :
    buildInput inp = buildInput inp' := by
  unfold buildInput
  rw [getFirstUrl_congr inp inp' "Image" (h _ (by simp [requiredInputNames])),
      getFirstUrl_congr inp inp' "rgba PNG - Background layer" (h _ (by simp [requiredInputNames])),
      getFirstUrl_congr inp inp' "rgba PNG - Music symbol layer" (h _ (by simp [requiredInputNames])),
      getFirstUrl_congr inp inp' "rgba PNG - Staff lines layer" (h _ (by simp [requiredInputNames])),
      getFirstUrl_congr inp inp' "rgba PNG - Text" (h _ (by simp [requiredInputNames])),
      getFirstUrl_congr inp inp' "rgba PNG - Selected regions" (h _ (by simp [requiredInputNames]))]

/-- Writing twice to the same path keeps the last content. -/
theorem fsWrite_fsWrite_self (fs : FS) (p : String) (d1 d2 : List Nat) :
    fsWrite (fsWrite fs p d1) p d2 = fsWrite fs p d2 := by
  induction fs with
  | nil => simp [fsWrite]
  | cons kv rest ih =>
    rcases kv with ⟨q, e⟩
    by_cases hq : q = p
    · simp [fsWrite, hq]
    · simp [fsWrite, hq, ih]

/-- Reading a path just written yields the written content. -/
theorem lookup_fsWrite_self (fs : FS) (p : String) (d : List Nat) :
    List.lookup p (fsWrite fs p d) = some d := by
  induction fs with
  | nil => simp [fsWrite, List.lookup]
  | cons kv rest ih =>
    rcases kv with ⟨q, e⟩
    by_cases hq : q = p
    · subst hq
      simp [fsWrite, List.lookup]
    · have hne : (p == q) = false := beq_eq_false_iff_ne.mpr fun hc => hq hc.symm
      simp [fsWrite, hq, List.lookup, ih, hne]

/-- A write leaves every other path unchanged. -/
theorem lookup_fsWrite_ne (fs : FS) (p q : String) (d : List Nat) (h : q ≠ p) :
    List.lookup q (fsWrite fs p d) = List.lookup q fs := by
  have hne : (q == p) = false := beq_eq_false_iff_ne.mpr h
  induction fs with
  | nil => simp [fsWrite, List.lookup, hne]
  | cons kv rest ih =>
    rcases kv with ⟨r, e⟩
    by_cases hr : r = p
    · subst hr
      simp [fsWrite, List.lookup, hne]
    · simp [fsWrite, hr, List.lookup, ih]

/-! ## Claim theorems -/

/-- Claim C1: whenever the poll loop of `run_my_task` returns a reply
body, that body belongs to a message whose correlation token equals the
fresh token of this call; every acknowledged message bears this token,
and a message bearing a different token is never acknowledged (and, by
the first part, never returned). -/
theorem pollLoop_correlation (cid : String) (q : List Msg) (tr : List Effect) (rd : RespDict)
    (h : pollLoop cid q = (tr, some rd)) :
    (∃ m ∈ q, m.correlation_id = cid ∧ rd = m.body) ∧
    (∀ m : Msg, Effect.ack m ∈ tr → m.correlation_id = cid) ∧
    (∀ m ∈ q, m.correlation_id ≠ cid → Effect.ack m ∉ tr) := by
  have hsome := pollLoop_some cid q tr rd h
  have hacks : ∀ m : Msg, Effect.ack m ∈ tr → m.correlation_id = cid := by
    intro m hm
    have := pollLoop_effects cid q (Effect.ack m) (by rw [h]; exact hm)
    rcases this with hbg | ⟨m', hm', hcid⟩
    · exact absurd hbg (by simp)
    · cases hm'; exact hcid
  exact ⟨hsome, hacks, fun m _ hne hmem => hne (hacks m hmem)⟩

/-- Witness for C1: on a queue holding a foreign reply then the matching
one, the loop acknowledges only the matching message and returns its body. -/
theorem pollLoop_correlation_witness :
    pollLoop "t" cQueue = (cPollTr, some cRd) ∧
    ((∃ m ∈ cQueue, m.correlation_id = "t" ∧ cRd = m.body) ∧
     (∀ m : Msg, Effect.ack m ∈ cPollTr → m.correlation_id = "t") ∧
     (∀ m ∈ cQueue, m.correlation_id ≠ "t" → Effect.ack m ∉ cPollTr)) :=
  ⟨by decide, pollLoop_correlation "t" cQueue cPollTr cRd (by decide)⟩

set_option maxRecDepth 10000 in
/-- Counterexample for C2: `run_my_task` has no timeout. With no matching
reply the loop is still `awaiting` after 1000 iterations, and the whole
call diverges instead of failing with a timeout error. -/
theorem poll_no_timeout_cex :
    pollIter "t" 1000 (PollState.awaiting [cMsgOther]) = PollState.awaiting [] ∧
    (run_my_task cInp cSettings cOutp cEnv "t" [cMsgOther] cFs).1 = RunResult.diverges :=
  ⟨by decide, by decide⟩

/-- Claim C2 as amended: the call accepts no timeout; when no reply with
the call's correlation token arrives, the poll loop never completes for
any number of iterations, `run_my_task` diverges rather than returning
or failing with a timeout error, and the connection is never closed. -/
theorem run_no_timeout (inp : Inputs) (s : SettingsV) (outp : Outputs) (env : Env)
    (cid : String) (queue : List Msg) (fs : FS) (l : List (String × String))
    (u p host : String)
    (hb : buildInput inp = .ok l)
    (hu : getEnv env "HPC_RABBITMQ_USER" = .ok u)
    (hp : getEnv env "HPC_RABBITMQ_PASSWORD" = .ok p)
    (hh : getEnv env "HPC_RABBITMQ_HOST" = .ok host)
    (hq : ∀ m ∈ queue, m.correlation_id ≠ cid) :
    (∀ (n : Nat) (rd : RespDict), pollIter cid n (.awaiting queue) ≠ .completed rd) ∧
    (run_my_task inp s outp env cid queue fs).1 = .diverges ∧
    Effect.close ∉ (run_my_task inp s outp env cid queue fs).2.1 := by
  have hpoll := pollLoop_none_of_no_match cid queue hq
  refine ⟨?_, ?_, ?_⟩
  · intro n rd hc
    rcases pollIter_stays_awaiting cid n queue hq with ⟨q', hq', -⟩
    rw [hq'] at hc
    exact PollState.noConfusion hc
  · simp only [run_my_task, hb, hu, hp, hh, hpoll]
  · simp only [run_my_task, hb, hu, hp, hh, hpoll]
    simp

/-- Witness for the amended C2 on concrete data. -/
theorem run_no_timeout_witness :
    (buildInput cInp = Except.ok cInputList ∧
     getEnv cEnv "HPC_RABBITMQ_USER" = Except.ok "guest" ∧
     getEnv cEnv "HPC_RABBITMQ_PASSWORD" = Except.ok "secret" ∧
     getEnv cEnv "HPC_RABBITMQ_HOST" = Except.ok "rabbit.example" ∧
     ∀ m ∈ [cMsgOther], m.correlation_id ≠ "t") ∧
    ((∀ (n : Nat) (rd : RespDict),
        pollIter "t" n (.awaiting [cMsgOther]) ≠ .completed rd) ∧
     (run_my_task cInp cSettings cOutp cEnv "t" [cMsgOther] cFs).1 = .diverges ∧
     Effect.close ∉ (run_my_task cInp cSettings cOutp cEnv "t" [cMsgOther] cFs).2.1) :=
  ⟨⟨by decide, by decide, by decide, by decide, by decide⟩,
   run_no_timeout cInp cSettings cOutp cEnv "t" [cMsgOther] cFs cInputList
     "guest" "secret" "rabbit.example" (by decide) (by decide) (by decide)
     (by decide) (by decide)⟩

/-- Counterexample for C3: the published value under "Image" is the
resource URL of the port's first resource, not the base64 encoding of
the file bytes stored at the resource's path. -/
theorem inputs_not_base64_cex :
    buildInput cInp = Except.ok cInputList ∧
    List.lookup "Image" cInp = some [Res.mk "http://example/r1" "p1"] ∧
    List.lookup "Image" cInputList = some "http://example/r1" ∧
    List.lookup "p1" cFs = some [0, 1, 2] ∧
    b64encodeStr [0, 1, 2] ≠ "http://example/r1" := by decide

/-- Claim C3 as amended: `run_my_task` reads no file content and applies
no base64 encoding to inputs; the value published under each input name
is the `resource_url` of the port's first resource, verbatim. -/
theorem buildInput_first_urls (r1 r2 r3 r4 r5 r6 : Res) (t1 t2 t3 t4 t5 t6 : List Res) :
    buildInput
      [("Image", r1 :: t1), ("rgba PNG - Background layer", r2 :: t2),
       ("rgba PNG - Music symbol layer", r3 :: t3), ("rgba PNG - Staff lines layer", r4 :: t4),
       ("rgba PNG - Text", r5 :: t5), ("rgba PNG - Selected regions", r6 :: t6)] =
    .ok [("Image", r1.resource_url), ("Background", r2.resource_url),
         ("Music Layer", r3.resource_url), ("Staff Layer", r4.resource_url),
         ("Text", r5.resource_url), ("Selected Regions", r6.resource_url)] := rfl

/-- Claim C4: decoding the base64 encoding of any byte sequence yields
exactly the original bytes, including the empty sequence and sequences
with null bytes. -/
theorem b64_roundtrip (bs : List Nat) (h : ∀ b ∈ bs, b < 256) :
    b64decodeStr (b64encodeStr bs) = bs := by
  unfold b64decodeStr b64encodeStr
  show decodeChunks (List.filterMap b64val ((encodeChunks bs).map b64char ++ b64padding bs)) = bs
  rw [List.filterMap_append, filterMap_b64val_map _ (encodeChunks_lt bs h),
      filterMap_b64val_padding, List.append_nil]
  exact decode_encode_chunks bs h

/-- Witness for C4 on a sequence containing null bytes. -/
theorem b64_roundtrip_witness :
    (∀ b ∈ ([0, 0, 255, 10, 3] : List Nat), b < 256) ∧
    b64decodeStr (b64encodeStr [0, 0, 255, 10, 3]) = [0, 0, 255, 10, 3] :=
  ⟨by decide, b64_roundtrip _ (by decide)⟩

/-- Counterexample for C5: on a response missing "Text Model" the unpack
step raises `KeyError "Text Model"` but has already rewritten the
"Background Model" destination and truncated the "Text Model" one. -/
theorem unpack_not_atomic_cex :
    unpack cOutp cRd3 cFs = (cFsAfter, some (Err.keyError "Text Model")) ∧
    List.lookup "pb" cFsAfter ≠ List.lookup "pb" cFs ∧
    List.lookup "pt" cFsAfter ≠ List.lookup "pt" cFs := by decide

/-- Claim C5 as amended: on a response holding the first three outputs
but missing "Text Model", the unpack step fails with `KeyError
"Text Model"` only after the first three destinations have been written
with the decoded payloads and the "Text Model" destination has been
truncated to empty: the unpack step is not atomic. -/
theorem unpack_not_atomic (o1 o2 o3 o4 : Res) (rd : RespDict) (fs : FS)
    (v1 v2 v3 : String)
    (h1 : List.lookup "Background Model" rd = some v1)
    (h2 : List.lookup "Music Symbol Model" rd = some v2)
    (h3 : List.lookup "Staff Lines Model" rd = some v3)
    (h4 : List.lookup "Text Model" rd = none)
    (d12 : o1.resource_path ≠ o2.resource_path)
    (d13 : o1.resource_path ≠ o3.resource_path)
    (d14 : o1.resource_path ≠ o4.resource_path)
    (d23 : o2.resource_path ≠ o3.resource_path)
    (d24 : o2.resource_path ≠ o4.resource_path)
    (d34 : o3.resource_path ≠ o4.resource_path) :
    ∃ fs', unpack (mkOutputs o1 o2 o3 o4) rd fs = (fs', some (.keyError "Text Model")) ∧
      List.lookup o1.resource_path fs' = some (b64decodeStr v1) ∧
      List.lookup o2.resource_path fs' = some (b64decodeStr v2) ∧
      List.lookup o3.resource_path fs' = some (b64decodeStr v3) ∧
      List.lookup o4.resource_path fs' = some [] := by
  have g1 : getFirstPath (mkOutputs o1 o2 o3 o4) "Background Model" = .ok o1.resource_path := by
    simp [getFirstPath, mkOutputs, List.lookup]
  have g2 : getFirstPath (mkOutputs o1 o2 o3 o4) "Music Symbol Model" = .ok o2.resource_path := by
    simp [getFirstPath, mkOutputs, List.lookup]
  have g3 : getFirstPath (mkOutputs o1 o2 o3 o4) "Staff Lines Model" = .ok o3.resource_path := by
    simp [getFirstPath, mkOutputs, List.lookup]
  have g4 : getFirstPath (mkOutputs o1 o2 o3 o4) "Text Model" = .ok o4.resource_path := by
    simp [getFirstPath, mkOutputs, List.lookup]
  have w1 : writeOutput (mkOutputs o1 o2 o3 o4) rd "Background Model" fs =
      (fsWrite fs o1.resource_path (b64decodeStr v1), none) := by
    simp [writeOutput, g1, h1, fsWrite_fsWrite_self]
  have w2 : ∀ f, writeOutput (mkOutputs o1 o2 o3 o4) rd "Music Symbol Model" f =
      (fsWrite f o2.resource_path (b64decodeStr v2), none) := by
    intro f
    simp [writeOutput, g2, h2, fsWrite_fsWrite_self]
  have w3 : ∀ f, writeOutput (mkOutputs o1 o2 o3 o4) rd "Staff Lines Model" f =
      (fsWrite f o3.resource_path (b64decodeStr v3), none) := by
    intro f
    simp [writeOutput, g3, h3, fsWrite_fsWrite_self]
  have w4 : ∀ f, writeOutput (mkOutputs o1 o2 o3 o4) rd "Text Model" f =
      (fsWrite f o4.resource_path [], some (.keyError "Text Model")) := by
    intro f
    simp [writeOutput, g4, h4]
  refine ⟨fsWrite (fsWrite (fsWrite (fsWrite fs o1.resource_path (b64decodeStr v1))
      o2.resource_path (b64decodeStr v2)) o3.resource_path (b64decodeStr v3))
      o4.resource_path [], ?_, ?_, ?_, ?_, ?_⟩
  · simp only [unpack, w1, w2, w3, w4]
  · rw [lookup_fsWrite_ne _ _ _ _ d14, lookup_fsWrite_ne _ _ _ _ d13,
        lookup_fsWrite_ne _ _ _ _ d12, lookup_fsWrite_self]
  · rw [lookup_fsWrite_ne _ _ _ _ d24, lookup_fsWrite_ne _ _ _ _ d23, lookup_fsWrite_self]
  · rw [lookup_fsWrite_ne _ _ _ _ d34, lookup_fsWrite_self]
  · rw [lookup_fsWrite_self]

/-- Witness for the amended C5 on concrete data. -/
theorem unpack_not_atomic_witness :
    (List.lookup "Background Model" cRd3 = some "AA==" ∧
     List.lookup "Music Symbol Model" cRd3 = some "AQ==" ∧
     List.lookup "Staff Lines Model" cRd3 = some "Ag==" ∧
     List.lookup "Text Model" cRd3 = none ∧
     cO1.resource_path ≠ cO2.resource_path ∧
     cO1.resource_path ≠ cO3.resource_path ∧
     cO1.resource_path ≠ cO4.resource_path ∧
     cO2.resource_path ≠ cO3.resource_path ∧
     cO2.resource_path ≠ cO4.resource_path ∧
     cO3.resource_path ≠ cO4.resource_path) ∧
    (∃ fs', unpack (mkOutputs cO1 cO2 cO3 cO4) cRd3 cFs = (fs', some (.keyError "Text Model")) ∧
      List.lookup cO1.resource_path fs' = some (b64decodeStr "AA==") ∧
      List.lookup cO2.resource_path fs' = some (b64decodeStr "AQ==") ∧
      List.lookup cO3.resource_path fs' = some (b64decodeStr "Ag==") ∧
      List.lookup cO4.resource_path fs' = some []) :=
  ⟨⟨by decide, by decide, by decide, by decide, by decide, by decide, by decide,
    by decide, by decide, by decide⟩,
   unpack_not_atomic cO1 cO2 cO3 cO4 cRd3 cFs "AA==" "AQ==" "Ag==" (by decide)
     (by decide) (by decide) (by decide) (by decide) (by decide) (by decide)
     (by decide) (by decide) (by decide)⟩

/-- Claim C6: when a required input port name is absent from the inputs
mapping, `run_my_task` raises before producing any broker effect: the
effect trace is empty (no connection, no publish) and the filesystem is
untouched. -/
theorem run_missing_input_no_connect (inp : Inputs) (s : SettingsV) (outp : Outputs)
    (env : Env) (cid : String) (queue : List Msg) (fs : FS) (k : String)
    (hk : k ∈ requiredInputNames) (hm : List.lookup k inp = none) :
    ∃ e, run_my_task inp s outp env cid queue fs = (.raises e, [], fs) := by
  cases hb : buildInput inp with
  | error e => exact ⟨e, by simp only [run_my_task, hb]⟩
  | ok l =>
    have := buildInput_ok_lookup inp l hb k hk
    rw [hm] at this
    exact absurd this (by simp)

/-- Witness for C6: an empty inputs mapping. -/
theorem run_missing_input_no_connect_witness :
    ("Image" ∈ requiredInputNames ∧ List.lookup "Image" ([] : Inputs) = none) ∧
    ∃ e, run_my_task [] cSettings cOutp cEnv "t" [] cFs = (.raises e, [], cFs) :=
  ⟨⟨by decide, by decide⟩,
   run_missing_input_no_connect [] cSettings cOutp cEnv "t" [] cFs "Image"
     (by decide) (by decide)⟩

/-- Claim C7: every request body published by `run_my_task` carries the
caller's settings mapping verbatim as its "settings" field. -/
theorem run_publish_settings_verbatim (inp : Inputs) (s : SettingsV) (outp : Outputs)
    (env : Env) (cid : String) (queue : List Msg) (fs : FS)
    (res : RunResult) (tr : List Effect) (fs' : FS)
    (h : run_my_task inp s outp env cid queue fs = (res, tr, fs'))
    (rk rt c : String) (body : MessageBody)
    (hm : Effect.publish rk rt c body ∈ tr) : body.settings = s := by
  unfold run_my_task at h
  split at h
  · simp only [Prod.mk.injEq] at h
    obtain ⟨-, htr, -⟩ := h
    rw [← htr] at hm
    simp at hm
  · split at h
    · simp only [Prod.mk.injEq] at h
      obtain ⟨-, htr, -⟩ := h
      rw [← htr] at hm
      simp at hm
    · split at h
      · simp only [Prod.mk.injEq] at h
        obtain ⟨-, htr, -⟩ := h
        rw [← htr] at hm
        simp at hm
      · split at h
        · simp only [Prod.mk.injEq] at h
          obtain ⟨-, htr, -⟩ := h
          rw [← htr] at hm
          simp at hm
        · rename_i l user pass host
          split at h
          · rename_i ptr heq
            simp only [Prod.mk.injEq] at h
            obtain ⟨-, htr, -⟩ := h
            rw [← htr] at hm
            simp only [List.mem_append, List.mem_cons, List.not_mem_nil, or_false] at hm
            rcases hm with ((hc | hc | hc | hc) | hc)
            · exact absurd hc (by simp)
            · exact absurd hc (by simp)
            · exact absurd hc (by simp)
            · rw [Effect.publish.injEq] at hc
              rw [hc.2.2.2]
            · rcases pollLoop_effects cid queue _ (by rw [heq]; exact hc) with hbg | ⟨m, hack, -⟩
              · exact absurd hbg (by simp)
              · exact absurd hack (by simp)
          · rename_i ptr rd heq
            split at h
            all_goals {
              simp only [Prod.mk.injEq] at h
              obtain ⟨-, htr, -⟩ := h
              rw [← htr] at hm
              simp only [List.mem_append, List.mem_cons, List.not_mem_nil, or_false] at hm
              rcases hm with (((hc | hc | hc | hc) | hc) | hc)
              · exact absurd hc (by simp)
              · exact absurd hc (by simp)
              · exact absurd hc (by simp)
              · rw [Effect.publish.injEq] at hc
                rw [hc.2.2.2]
              · rcases pollLoop_effects cid queue _ (by rw [heq]; exact hc) with hbg | ⟨m, hack, -⟩
                · exact absurd hbg (by simp)
                · exact absurd hack (by simp)
              · exact absurd hc (by simp)
            }

/-- Witness for C7: the successful concrete run publishes `cBody`, whose
settings field is the caller's `cSettings`. -/
theorem run_publish_settings_verbatim_witness :
    (run_my_task cInp cSettings cOutp cEnv "t" cQueue cFs =
       (.returns true, cTrace, cFsFinal) ∧
     Effect.publish "hpc-jobs" "hpc-results" "t" cBody ∈ cTrace) ∧
    cBody.settings = cSettings :=
  ⟨⟨by decide, by decide⟩,
   run_publish_settings_verbatim cInp cSettings cOutp cEnv "t" cQueue cFs
     (.returns true) cTrace cFsFinal (by decide) "hpc-jobs" "hpc-results" "t"
     cBody (by decide)⟩

/-- Claim C8: when one of the three broker environment variables is
absent, `run_my_task` raises a `KeyError` on an environment variable
before producing any broker effect: the trace is empty, so no
connection attempt is made. (Requires the inputs to be well formed,
since a malformed inputs mapping already raises earlier, also before
any connection.) -/
theorem run_missing_env_no_connect (inp : Inputs) (s : SettingsV) (outp : Outputs)
    (env : Env) (cid : String) (queue : List Msg) (fs : FS)
    (l : List (String × String)) (k : String)
    (hb : buildInput inp = .ok l) (hk : k ∈ envNames) (hm : List.lookup k env = none) :
    ∃ k' ∈ envNames,
      run_my_task inp s outp env cid queue fs = (.raises (.keyError k'), [], fs) := by
  cases hu : getEnv env "HPC_RABBITMQ_USER" with
  | error e =>
    refine ⟨"HPC_RABBITMQ_USER", by simp [envNames], ?_⟩
    rw [getEnv_error_eq _ _ _ hu] at hu
    simp only [run_my_task, hb, hu]
  | ok u =>
  cases hpw : getEnv env "HPC_RABBITMQ_PASSWORD" with
  | error e =>
    refine ⟨"HPC_RABBITMQ_PASSWORD", by simp [envNames], ?_⟩
    rw [getEnv_error_eq _ _ _ hpw] at hpw
    simp only [run_my_task, hb, hu, hpw]
  | ok pw =>
  cases hh : getEnv env "HPC_RABBITMQ_HOST" with
  | error e =>
    refine ⟨"HPC_RABBITMQ_HOST", by simp [envNames], ?_⟩
    rw [getEnv_error_eq _ _ _ hh] at hh
    simp only [run_my_task, hb, hu, hpw, hh]
  | ok host =>
    exfalso
    simp only [envNames, List.mem_cons, List.not_mem_nil, or_false] at hk
    rcases hk with rfl | rfl | rfl
    · rw [getEnv_ok_lookup _ _ _ hu] at hm; exact Option.noConfusion hm
    · rw [getEnv_ok_lookup _ _ _ hpw] at hm; exact Option.noConfusion hm
    · rw [getEnv_ok_lookup _ _ _ hh] at hm; exact Option.noConfusion hm

/-- Witness for C8: an environment missing the password variable. -/
theorem run_missing_env_no_connect_witness :
    (buildInput cInp = Except.ok cInputList ∧
     "HPC_RABBITMQ_PASSWORD" ∈ envNames ∧
     List.lookup "HPC_RABBITMQ_PASSWORD" cEnvMissing = none) ∧
    ∃ k' ∈ envNames,
      run_my_task cInp cSettings cOutp cEnvMissing "t" [] cFs =
        (.raises (.keyError k'), [], cFs) :=
  ⟨⟨by decide, by decide, by decide⟩,
   run_missing_env_no_connect cInp cSettings cOutp cEnvMissing "t" [] cFs
     cInputList "HPC_RABBITMQ_PASSWORD" (by decide) (by decide) (by decide)⟩

/-- Claim C9: whenever `run_my_task` returns normally, the returned
value is exactly `True`. -/
theorem run_returns_true (inp : Inputs) (s : SettingsV) (outp : Outputs)
    (env : Env) (cid : String) (queue : List Msg) (fs : FS) (b : Bool)
    (h : (run_my_task inp s outp env cid queue fs).1 = .returns b) : b = true := by
  unfold run_my_task at h
  repeat' split at h
  all_goals simp_all

/-- Witness for C9: the successful concrete run returns `True`. -/
theorem run_returns_true_witness :
    (run_my_task cInp cSettings cOutp cEnv "t" cQueue cFs).1 = RunResult.returns true ∧
    true = true :=
  ⟨by decide,
   run_returns_true cInp cSettings cOutp cEnv "t" cQueue cFs true (by decide)⟩

/-- Claim C10: only the first resource of each required input port
influences the call; two inputs mappings agreeing on the first resource
of every required port make `run_my_task` behave identically (same
outcome, same effect trace with the same published body, same final
filesystem). -/
theorem run_first_resource_only (inp inp' : Inputs) (s : SettingsV) (outp : Outputs)
    (env : Env) (cid : String) (queue : List Msg) (fs : FS)
    (h : ∀ k ∈ requiredInputNames, firstOf inp k = firstOf inp' k) :
    run_my_task inp s outp env cid queue fs = run_my_task inp' s outp env cid queue fs := by
  unfold run_my_task
  rw [buildInput_congr inp inp' h]

/-- Witness for C10: adding a second resource on every port changes
nothing. -/
theorem run_first_resource_only_witness :
    (∀ k ∈ requiredInputNames, firstOf cInp k = firstOf cInp2 k) ∧
    run_my_task cInp cSettings cOutp cEnv "t" cQueue cFs =
      run_my_task cInp2 cSettings cOutp cEnv "t" cQueue cFs :=
  ⟨by decide,
   run_first_resource_only cInp cInp2 cSettings cOutp cEnv "t" cQueue cFs (by decide)⟩

end HPC
